import Mathlib

/-!
Shallow embedding of the stock-watchdog service (src/main.py) and proofs
about it.  Python floats are modelled as exact rationals (ℚ); Python's
`round(x, 2)` is modelled as decimal rounding half-to-even; Python dicts
keyed by symbol are modelled as functions `String → Option _`; exceptions
are modelled with `Except Unit`.  Wall-clock timestamps and logging are not
observable to any property and are omitted.
-/

/-- Configuration of one monitored instrument (`StockConfig` in main.py). -/
structure StockConfig where
  symbol : String
  company_name : String
  quantity_factor : ℚ
  loan_outstanding : ℚ
  security_cover_threshold : ℚ
deriving DecidableEq

/-- Configuration of one recipient (`RecipientConfig` in main.py).
The three alert-preference flags model the entries of the
`alert_preferences` dict; `none` models an absent key, which every read
site defaults to `True` via `dict.get(key, True)`. -/
structure RecipientConfig where
  email : String
  subscribed_symbols : List String
  name : String
  cc : List String
  bcc : List String
  scheduled_reports : Option Bool
  threat_alerts : Option Bool
  manual_alerts : Option Bool
deriving DecidableEq

/-- One price snapshot as built by `StockPriceMonitor.get_stock_data`
(the `data` dict).  `security_cover` is an `Option` because downstream
consumers read it with `stock_data.get("security_cover", 999)`; the
producer always writes `some _`.  The `timestamp` field is omitted. -/
structure StockData where
  symbol : String
  current_price : ℚ
  previous_close : ℚ
  yesterday_close : ℚ
  change : ℚ
  change_percent : ℚ
  yesterday_change : ℚ
  yesterday_change_percent : ℚ
  volume : ℤ
  market_cap : Option ℚ
  trailing_pe : Option ℚ
  week52_high : Option ℚ
  week52_low : Option ℚ
  security_cover : Option ℚ
deriving DecidableEq

/-- The provider response for one symbol: the fields of `ticker.info` that
`get_stock_data` reads, the daily-bar closes (`hist_5d`, oldest first) and
the intraday bars as (close, volume) pairs (`hist_1d`, oldest first). -/
structure ProviderData where
  currentPrice : Option ℚ
  previousClose : Option ℚ
  volume : Option ℤ
  marketCap : Option ℚ
  trailingPE : Option ℚ
  fiftyTwoWeekHigh : Option ℚ
  fiftyTwoWeekLow : Option ℚ
  hist5d : List ℚ
  hist1d : List (ℚ × ℤ)
deriving DecidableEq

/-- The monitor's `self.cache`: symbol → last good snapshot. -/
def CacheMap : Type := String → Option StockData

/-- Overwrite one key of a symbol-keyed map (Python dict assignment). -/
def updateMap (m : CacheMap) (s : String) (d : StockData) : CacheMap :=
  fun t => if t = s then some d else m t

/-- Python truthiness of an optional number: `None` and `0` are falsy. -/
def pyTruthy (o : Option ℚ) : Bool :=
  match o with
  | none => false
  | some x => x != 0

/-- Python's `a or b` on optional numbers. -/
def pyOr (a b : Option ℚ) : Option ℚ :=
  if pyTruthy a then a else b

/-- Floor of a rational, computed on the normalised fraction. -/
def ratFloor (q : ℚ) : ℤ :=
  Int.fdiv q.num (q.den : ℤ)

/-- Round to the nearest integer with ties to even, the rounding mode of
Python's `round`. -/
def roundHalfEven (q : ℚ) : ℤ :=
  let n := ratFloor q
  let frac := q - (n : ℚ)
  if frac < 1 / 2 then n
  else if 1 / 2 < frac then n + 1
  else if n % 2 = 0 then n else n + 1

/-- Python's `round(x, 2)` modelled exactly on rationals. -/
def pyRound2 (q : ℚ) : ℚ :=
  ((roundHalfEven (q * 100) : ℚ)) / 100

/-- Current price and volume selection of `get_stock_data`: prefer the
last intraday bar; if `hist_1d` is empty fall back to
`info.get('currentPrice') or info.get('previousClose')` and raise
(`ValueError`) when that is falsy. -/
def currentPriceVol (pd : ProviderData) : Except Unit (ℚ × ℤ) :=
  match pd.hist1d.getLast? with
  | some cv => Except.ok cv
  | none =>
    match pyOr pd.currentPrice pd.previousClose with
    | none => Except.error ()
    | some cp => if cp = 0 then Except.error () else Except.ok (cp, pd.volume.getD 0)

/-- The body of the `try` block of `get_stock_data`: build the snapshot
dict from one provider response.  Mirrors main.py lines 154-204. -/
def computeData (sc : StockConfig) (pd : ProviderData) : Except Unit StockData :=
  match currentPriceVol pd with
  | Except.error e => Except.error e
  | Except.ok (current_price, current_volume) =>
    let pc0 := pd.previousClose.getD current_price
    let prev_close :=
      match pd.hist5d.reverse with
      | c1 :: _ :: _ => c1
      | _ => pc0
    let yesterday_close :=
      match pd.hist5d.reverse with
      | _ :: c2 :: _ => c2
      | _ => pc0
    let current_change := current_price - prev_close
    let current_change_percent :=
      if prev_close ≠ 0 then current_change / prev_close * 100 else 0
    let yesterday_change :=
      match pd.hist5d.reverse with
      | _ :: c2 :: c3 :: _ => c2 - c3
      | _ => 0
    let yesterday_change_percent :=
      match pd.hist5d.reverse with
      | _ :: c2 :: c3 :: _ => if c3 ≠ 0 then (c2 - c3) / c3 * 100 else 0
      | _ => 0
    let security_cover :=
      if sc.loan_outstanding > 0 then
        sc.quantity_factor * current_price / sc.loan_outstanding
      else 0
    Except.ok
      { symbol := sc.symbol
        current_price := pyRound2 current_price
        previous_close := pyRound2 prev_close
        yesterday_close := pyRound2 yesterday_close
        change := pyRound2 current_change
        change_percent := pyRound2 current_change_percent
        yesterday_change := pyRound2 yesterday_change
        yesterday_change_percent := pyRound2 yesterday_change_percent
        volume := current_volume
        market_cap := pd.marketCap
        trailing_pe := pd.trailingPE
        week52_high := pd.fiftyTwoWeekHigh
        week52_low := pd.fiftyTwoWeekLow
        security_cover := some (pyRound2 security_cover) }

/-- One attempted fetch: `resp = none` models an exception raised by the
provider calls themselves; a parse failure inside the `try` block is an
`Except.error` from `computeData`.  Either way the `except` handler of
`get_stock_data` sees a failure. -/
def attemptFetch (sc : StockConfig) (resp : Option ProviderData) : Except Unit StockData :=
  match resp with
  | none => Except.error ()
  | some pd => computeData sc pd

/-- The monitor's `get_stock_data` (main.py lines 144-215): on success
cache and return the fresh snapshot; on any failure return the cached
snapshot when one exists, otherwise re-raise (`Except.error`). -/
def get_stock_data (cache : CacheMap) (sc : StockConfig) (resp : Option ProviderData) :
    Except Unit StockData × CacheMap :=
  match attemptFetch sc resp with
  | Except.ok d => (Except.ok d, updateMap cache sc.symbol d)
  | Except.error _ =>
    match cache sc.symbol with
    | some d => (Except.ok d, cache)
    | none => (Except.error (), cache)

/-- The fan-out of `check_multiple_stocks` (main.py lines 217-219):
`asyncio.gather` over `get_stock_data` tasks sharing `self.cache`.
`get_stock_data` contains no `await`, so the tasks run to completion one
after another on the event loop; the fold threads the shared cache. -/
def gatherResults (cache : CacheMap) :
    List (StockConfig × Option ProviderData) → List (Except Unit StockData) × CacheMap
  | [] => ([], cache)
  | p :: rest =>
    let step := get_stock_data cache p.1 p.2
    let tail := gatherResults step.2 rest
    (step.1 :: tail.1, tail.2)

/-- The fan-in of `check_multiple_stocks` (main.py lines 221-230): build
`stock_data_map` from the zipped (config, result) pairs, consulting the
(final) cache for results that are exceptions. -/
def buildMap (finalCache : CacheMap) (m : String → Option StockData) :
    List StockConfig → List (Except Unit StockData) → (String → Option StockData)
  | [], _ => m
  | _ :: _, [] => m
  | sc :: scs, r :: rs =>
    match r with
    | Except.ok d => buildMap finalCache (updateMap m sc.symbol d) scs rs
    | Except.error _ =>
      match finalCache sc.symbol with
      | some d => buildMap finalCache (updateMap m sc.symbol d) scs rs
      | none => buildMap finalCache m scs rs

/-- The monitor's `check_multiple_stocks`: returns the symbol → snapshot
map of the run together with the cache left behind. -/
def check_multiple_stocks (cache : CacheMap)
    (items : List (StockConfig × Option ProviderData)) :
    (String → Option StockData) × CacheMap :=
  let g := gatherResults cache items
  (buildMap g.2 (fun _ => none) (items.map (fun p => p.1)) g.1, g.2)

/-- Shared read pattern `stock_data.get("security_cover", 999)` used by
the planner, the renderer and the manual-alert endpoint. -/
def coverGetD (d : StockData) : ℚ :=
  d.security_cover.getD 999

/-- The lookup `next((sc for sc in all_stocks_config if sc.symbol == symbol), None)`. -/
def configFind (configs : List StockConfig) (s : String) : Option StockConfig :=
  configs.find? (fun sc => sc.symbol == s)

/-- Per-snapshot breach test of the planner loop (main.py lines 489-494):
the config for the snapshot's symbol must resolve and the cover ratio
(defaulted to 999) must be strictly below its threshold. -/
def breachCheck (configs : List StockConfig) (d : StockData) : Bool :=
  match configFind configs d.symbol with
  | some sc => decide (coverGetD d < sc.security_cover_threshold)
  | none => false

/-- `is_any_cover_breached` aggregation over a recipient's resolvable
snapshots. -/
def isAnyCoverBreached (configs : List StockConfig) (ds : List StockData) : Bool :=
  ds.any (breachCheck configs)

/-- The snapshots of the recipient's subscribed symbols that are present
in the run's snapshot map (`recipient_stock_data`, main.py lines 479-482). -/
def recipientStockData (m : String → Option StockData) (r : RecipientConfig) :
    List StockData :=
  r.subscribed_symbols.filterMap m

/-- Subject line chosen by `_check_all_stocks` (main.py lines 500-502). -/
def subjectFor (isScheduled : Bool) (anyBreach : Bool) : String :=
  let base := if anyBreach then "BOT ALERT!" else "Stock Update"
  if isScheduled then "Scheduled Report - " ++ base else base

/-- One rendered per-instrument block of `format_grouped_alert`
(main.py lines 283-330).  The HTML concatenation is abstracted to the
record of the strings and values interpolated into it. -/
structure StockRender where
  header_text : String
  header_style : String
  cover_style : String
  currency : String
  current_price_val : ℚ
  previous_close_val : ℚ
  yesterday_close_val : ℚ
  current_change_val : ℚ
  current_change_percent_val : ℚ
  yesterday_change_val : ℚ
  yesterday_change_percent_val : ℚ
  security_cover_val : ℚ
  required_cover : ℚ
  current_change_color : String
  yesterday_change_color : String
  current_change_sign : String
  yesterday_change_sign : String
deriving DecidableEq

/-- Render one snapshot inside `format_grouped_alert`; `none` models the
`continue` taken when no config matches the snapshot's symbol. -/
def renderStock (currency : String) (configs : List StockConfig) (d : StockData) :
    Option StockRender :=
  match configFind configs d.symbol with
  | none => none
  | some sc =>
    let is_cover_breached := decide (coverGetD d < sc.security_cover_threshold)
    let header_text :=
      if is_cover_breached then
        "ATTENTION: " ++ sc.company_name ++ " (" ++ d.symbol ++ ")"
      else
        "Update for " ++ sc.company_name ++ " (" ++ d.symbol ++ ")"
    let header_style := if is_cover_breached then "color: red;" else "color: blue;"
    let cover_style := if is_cover_breached then "color: red; font-weight: bold;" else ""
    some
      { header_text := header_text
        header_style := header_style
        cover_style := cover_style
        currency := currency
        current_price_val := d.current_price
        previous_close_val := d.previous_close
        yesterday_close_val := d.yesterday_close
        current_change_val := d.change
        current_change_percent_val := d.change_percent
        yesterday_change_val := d.yesterday_change
        yesterday_change_percent_val := d.yesterday_change_percent
        security_cover_val := d.security_cover.getD 0
        required_cover := sc.security_cover_threshold
        current_change_color := if d.change ≥ 0 then "green" else "red"
        yesterday_change_color := if d.yesterday_change ≥ 0 then "green" else "red"
        current_change_sign := if d.change ≥ 0 then "+" else ""
        yesterday_change_sign := if d.yesterday_change ≥ 0 then "+" else "" }

/-- `EmailService.format_grouped_alert`: the ordered per-instrument blocks
of the grouped document. -/
def format_grouped_alert (ds : List StockData) (configs : List StockConfig)
    (currency : String) : List StockRender :=
  ds.filterMap (renderStock currency configs)

/-- Observable outcome of one `EmailService.send_alert` call: the guard
return when no SMTP password is configured, a successful delivery, or a
transport exception caught and logged (main.py lines 242-266).  The
function is total: no branch propagates an exception to the caller. -/
inductive SendOutcome where
  | notConfigured : SendOutcome
  | sent : SendOutcome
  | failed : String → SendOutcome
deriving DecidableEq

/-- `EmailService.send_alert` for one recipient; `transportError` is the
exception, if any, that `_send_smtp_email` would raise for this message. -/
def send_alert (smtpPassword : String) (transportError : Option String) : SendOutcome :=
  if smtpPassword = "" then SendOutcome.notConfigured
  else
    match transportError with
    | some e => SendOutcome.failed e
    | none => SendOutcome.sent

/-- Per-recipient decision and payload of `_check_all_stocks`
(main.py lines 469-507): `none` when the recipient is skipped, otherwise
the subject and rendered body passed to `send_alert`. -/
def planRecipient (isScheduled threatOnly : Bool) (configs : List StockConfig)
    (m : String → Option StockData) (currency : String) (r : RecipientConfig) :
    Option (String × List StockRender) :=
  let should_send_scheduled := isScheduled && r.scheduled_reports.getD true
  let should_send_threat := threatOnly && r.threat_alerts.getD true
  if !(should_send_scheduled || should_send_threat) then none
  else
    let ds := recipientStockData m r
    if ds.isEmpty then none
    else
      let anyBreach := isAnyCoverBreached configs ds
      if (should_send_scheduled && !threatOnly) || (should_send_threat && anyBreach) then
        some (subjectFor isScheduled anyBreach, format_grouped_alert ds configs currency)
      else none

/-- The pipeline `StockWatchdog._check_all_stocks`: fetch the snapshot
map, then walk the recipients, invoking `send_alert` for each planned
payload.  Returns the (recipient email, send outcome) pairs in recipient
order; `tfail` gives the transport error, if any, per recipient email. -/
def check_all_stocks (isScheduled threatOnly : Bool)
    (items : List (StockConfig × Option ProviderData))
    (recipients : List RecipientConfig) (currency : String) (cache : CacheMap)
    (smtpPassword : String) (tfail : String → Option String) :
    List (String × SendOutcome) :=
  if items.isEmpty || recipients.isEmpty then []
  else
    let m := (check_multiple_stocks cache items).1
    let configs := items.map (fun p => p.1)
    recipients.filterMap (fun r =>
      (planRecipient isScheduled threatOnly configs m currency r).map
        (fun _ => (r.email, send_alert smtpPassword (tfail r.email))))

/-- `StockWatchdog._scheduled_check` wiring: `is_scheduled=True`. -/
def scheduled_check (items : List (StockConfig × Option ProviderData))
    (recipients : List RecipientConfig) (currency : String) (cache : CacheMap)
    (smtpPassword : String) (tfail : String → Option String) :
    List (String × SendOutcome) :=
  check_all_stocks true false items recipients currency cache smtpPassword tfail

/-- `StockWatchdog._continuous_threat_check` wiring:
`is_scheduled=False, threat_only=True`. -/
def continuous_threat_check (items : List (StockConfig × Option ProviderData))
    (recipients : List RecipientConfig) (currency : String) (cache : CacheMap)
    (smtpPassword : String) (tfail : String → Option String) :
    List (String × SendOutcome) :=
  check_all_stocks false true items recipients currency cache smtpPassword tfail

/-- Subject chosen by the manual-alert endpoint (main.py lines 415-417). -/
def manual_subject (sc : StockConfig) (d : StockData) : String :=
  (if coverGetD d < sc.security_cover_threshold then "BOT ALERT!"
   else "Manual Stock Update") ++ ": " ++ sc.symbol

/-- Result of `POST /alert/{symbol}` (`trigger_manual_alert`). -/
inductive ManualResult where
  | notFound : ManualResult
  | fetchError : ManualResult
  | noRecipients : ManualResult
  | sent : String → List StockRender → List (String × SendOutcome) → ManualResult

/-- The `trigger_manual_alert` route handler (main.py lines 395-427). -/
def trigger_manual_alert (symbol : String) (configs : List StockConfig)
    (recipients : List RecipientConfig) (currency : String) (cache : CacheMap)
    (resp : Option ProviderData) (smtpPassword : String)
    (tfail : String → Option String) : ManualResult :=
  let upper := symbol.toUpper
  match configs.find? (fun s => s.symbol.toUpper == upper) with
  | none => ManualResult.notFound
  | some sc =>
    match (get_stock_data cache sc resp).1 with
    | Except.error _ => ManualResult.fetchError
    | Except.ok d =>
      let toNotify := recipients.filter (fun r =>
        r.subscribed_symbols.contains upper && r.manual_alerts.getD true)
      if toNotify.isEmpty then ManualResult.noRecipients
      else
        ManualResult.sent (manual_subject sc d)
          (format_grouped_alert [d] [sc] currency)
          (toNotify.map (fun r => (r.email, send_alert smtpPassword (tfail r.email))))

/-! Helper lemmas -/

lemma breachCheck_eq_true_iff (configs : List StockConfig) (d : StockData) :
    breachCheck configs d = true ↔
      ∃ sc, configFind configs d.symbol = some sc ∧
        coverGetD d < sc.security_cover_threshold := by
  unfold breachCheck
  rcases h : configFind configs d.symbol with _ | sc <;> simp [h]

lemma isAnyCoverBreached_eq_true_iff (configs : List StockConfig)
    (m : String → Option StockData) (r : RecipientConfig) :
    isAnyCoverBreached configs (recipientStockData m r) = true ↔
      ∃ s ∈ r.subscribed_symbols, ∃ d, m s = some d ∧
        ∃ sc, configFind configs d.symbol = some sc ∧
          coverGetD d < sc.security_cover_threshold := by
  unfold isAnyCoverBreached recipientStockData
  rw [List.any_eq_true]
  constructor
  · rintro ⟨d, hd, hb⟩
    obtain ⟨s, hs, hms⟩ := List.mem_filterMap.mp hd
    obtain ⟨sc, hsc, hlt⟩ := (breachCheck_eq_true_iff configs d).mp hb
    exact ⟨s, hs, d, hms, sc, hsc, hlt⟩
  · rintro ⟨s, hs, d, hms, sc, hsc, hlt⟩
    exact ⟨d, List.mem_filterMap.mpr ⟨s, hs, hms⟩,
      (breachCheck_eq_true_iff configs d).mpr ⟨sc, hsc, hlt⟩⟩

lemma filterMap_filter_ne {α β : Type} [DecidableEq α] (f : α → Option β) (r : α)
    (hf : f r = none) (l : List α) :
    l.filterMap f = (l.filter (fun x => x ≠ r)).filterMap f := by
  induction l with
  | nil => rfl
  | cons a t ih =>
    by_cases ha : a = r
    · subst ha
      simp [List.filter_cons, List.filterMap_cons, hf, ih]
    · simp [List.filter_cons, ha, List.filterMap_cons, ih]

/-! C1: a clean threat scan is silent -/

/-- C1: for every recipient and every preference setting, a threat-scan
run (`is_scheduled=False, threat_only=True`) in which none of the
recipient's subscribed symbols present in the snapshot map is breached
plans no payload for that recipient, so `send_alert` is never invoked for
them: the whole run is the one it would be without that recipient. -/
theorem threat_scan_clean_no_dispatch
    (items : List (StockConfig × Option ProviderData))
    (recipients : List RecipientConfig) (currency : String) (cache : CacheMap)
    (smtpPassword : String) (tfail : String → Option String) (r : RecipientConfig)
    (hclean : isAnyCoverBreached (items.map (fun p => p.1))
        (recipientStockData (check_multiple_stocks cache items).1 r) = false) :
    planRecipient false true (items.map (fun p => p.1))
        (check_multiple_stocks cache items).1 currency r = none ∧
    continuous_threat_check items recipients currency cache smtpPassword tfail =
      continuous_threat_check items (recipients.filter (fun x => x ≠ r)) currency
        cache smtpPassword tfail := by
  have hplan : planRecipient false true (items.map (fun p => p.1))
      (check_multiple_stocks cache items).1 currency r = none := by
    cases hst : r.threat_alerts.getD true with
    | false => simp [planRecipient, hst]
    | true => simp [planRecipient, hst, hclean]
  refine ⟨hplan, ?_⟩
  unfold continuous_threat_check check_all_stocks
  by_cases hi : items.isEmpty
  · simp [hi]
  · by_cases hrec : recipients.isEmpty
    · rw [List.isEmpty_iff] at hrec
      subst hrec
      simp
    · have hf : (fun r' =>
          (planRecipient false true (items.map (fun p => p.1))
              (check_multiple_stocks cache items).1 currency r').map
            (fun _ => (r'.email, send_alert smtpPassword (tfail r'.email)))) r
          = none := by
        simp [hplan]
      by_cases hfilt : (recipients.filter (fun x => x ≠ r)).isEmpty
      · rw [List.isEmpty_iff] at hfilt
        simp only [hi, hrec, Bool.false_or, if_false, hfilt]
        rw [filterMap_filter_ne _ r hf recipients, hfilt]
        simp
      · simp only [hi, hrec, hfilt, Bool.false_or, if_false]
        exact filterMap_filter_ne _ r hf recipients

def wSc1 : StockConfig :=
  { symbol := "STAR.NS", company_name := "Strides Pharma Science Limited",
    quantity_factor := 2, loan_outstanding := 4, security_cover_threshold := 17/10 }

def wPd1 : ProviderData :=
  { currentPrice := none, previousClose := none, volume := none, marketCap := none,
    trailingPE := none, fiftyTwoWeekHigh := none, fiftyTwoWeekLow := none,
    hist5d := [4, 6, 8], hist1d := [(6, 100)] }

def wRec1 : RecipientConfig :=
  { email := "trader@yourcompany.com", subscribed_symbols := ["STAR.NS"], name := "",
    cc := [], bcc := [], scheduled_reports := some true, threat_alerts := some true,
    manual_alerts := some true }

def wItems1 : List (StockConfig × Option ProviderData) := [(wSc1, some wPd1)]

def wCache0 : CacheMap := fun _ => none

/-- Witness for C1: a concrete clean threat scan plans nothing. -/
theorem threat_scan_clean_no_dispatch_witness :
    isAnyCoverBreached (wItems1.map (fun p => p.1))
        (recipientStockData (check_multiple_stocks wCache0 wItems1).1 wRec1) = false ∧
    planRecipient false true (wItems1.map (fun p => p.1))
        (check_multiple_stocks wCache0 wItems1).1 "Rs" wRec1 = none :=
  ⟨by with_unfolding_all rfl,
    (threat_scan_clean_no_dispatch wItems1 [wRec1] "Rs" wCache0 "pw" (fun _ => none)
      wRec1 (by with_unfolding_all rfl)).1⟩

/-! C2: a scheduled trigger always dispatches to eligible recipients -/

/-- C2: a recipient with the `scheduled_reports` preference on (or absent,
defaulting to on) and at least one subscribed symbol present in the
snapshot map always gets a payload from a scheduled run
(`is_scheduled=True, threat_only=False`), breached or not; the subject is
the escalated `Scheduled Report - BOT ALERT!` exactly when some
subscribed, config-resolvable snapshot is breached. -/
theorem scheduled_trigger_always_dispatches (configs : List StockConfig)
    (m : String → Option StockData) (currency : String) (r : RecipientConfig)
    (hpref : r.scheduled_reports.getD true = true)
    (hres : recipientStockData m r ≠ []) :
    planRecipient true false configs m currency r =
      some (subjectFor true (isAnyCoverBreached configs (recipientStockData m r)),
        format_grouped_alert (recipientStockData m r) configs currency) ∧
    (subjectFor true (isAnyCoverBreached configs (recipientStockData m r)) =
        "Scheduled Report - BOT ALERT!" ↔
      ∃ s ∈ r.subscribed_symbols, ∃ d, m s = some d ∧
        ∃ sc, configFind configs d.symbol = some sc ∧
          coverGetD d < sc.security_cover_threshold) := by
  constructor
  · rw [← List.isEmpty_eq_false] at hres
    simp [planRecipient, hpref, hres]
  · rw [← isAnyCoverBreached_eq_true_iff configs m r]
    cases hb : isAnyCoverBreached configs (recipientStockData m r) with
    | false =>
      simp only [subjectFor, if_false, Bool.false_eq_true, iff_false]
      intro hcontra
      exact absurd (congrArg String.length hcontra) (by decide)
    | true => simp [subjectFor]

def wSc2 : StockConfig :=
  { symbol := "STAR.NS", company_name := "Strides Pharma Science Limited",
    quantity_factor := 1000000, loan_outstanding := 4000000,
    security_cover_threshold := 3/2 }

def wData2 : StockData :=
  { symbol := "STAR.NS", current_price := 11/2, previous_close := 11/2,
    yesterday_close := 11/2, change := 0, change_percent := 0, yesterday_change := 0,
    yesterday_change_percent := 0, volume := 0, market_cap := none,
    trailing_pe := none, week52_high := none, week52_low := none,
    security_cover := some (11/8) }

def wMap2 : String → Option StockData :=
  fun s => if s = "STAR.NS" then some wData2 else none

/-- Witness for C2: a concrete scheduled run over one breached snapshot
dispatches with the escalated subject. -/
theorem scheduled_trigger_always_dispatches_witness :
    wRec1.scheduled_reports.getD true = true ∧
    recipientStockData wMap2 wRec1 ≠ [] ∧
    planRecipient true false [wSc2] wMap2 "Rs" wRec1 =
      some (subjectFor true (isAnyCoverBreached [wSc2] (recipientStockData wMap2 wRec1)),
        format_grouped_alert (recipientStockData wMap2 wRec1) [wSc2] "Rs") ∧
    subjectFor true (isAnyCoverBreached [wSc2] (recipientStockData wMap2 wRec1)) =
      "Scheduled Report - BOT ALERT!" := by
  have hres : recipientStockData wMap2 wRec1 ≠ [] := by
    rw [show recipientStockData wMap2 wRec1 = [wData2] from by with_unfolding_all rfl]
    exact List.cons_ne_nil _ _
  refine ⟨rfl, hres, ?_, by with_unfolding_all rfl⟩
  exact (scheduled_trigger_always_dispatches [wSc2] wMap2 "Rs" wRec1 rfl hres).1

/-! C3: zero loan gives cover 0, but the breach predicate then reads 0 < threshold -/

lemma pyRound2_zero : pyRound2 0 = 0 := by with_unfolding_all rfl

def cSc3 : StockConfig :=
  { symbol := "ZERO.NS", company_name := "Zero Loan Ltd", quantity_factor := 1000000,
    loan_outstanding := 0, security_cover_threshold := 3/2 }

def cPd3 : ProviderData :=
  { currentPrice := none, previousClose := none, volume := none, marketCap := none,
    trailingPE := none, fiftyTwoWeekHigh := none, fiftyTwoWeekLow := none,
    hist5d := [10, 10, 10], hist1d := [(10, 5)] }

/-- Counterexample to C3 as stated: with `loan_outstanding = 0` and
threshold 1.5, the snapshot's cover ratio is 0 yet the breach predicate
used downstream evaluates to `true` (0 < 1.5), not `false`. -/
theorem zero_loan_breach_cex :
    (computeData cSc3 cPd3).toOption.map (fun d => d.security_cover) = some (some 0) ∧
    (computeData cSc3 cPd3).toOption.map (fun d => breachCheck [cSc3] d) = some true := by
  constructor <;> with_unfolding_all rfl

/-- C3 (amended): for `loan_outstanding = 0` the computed cover ratio is 0,
and the breach predicate evaluates to `0 < threshold` — false only when the
threshold is not positive, true for every positive threshold. -/
theorem zero_loan_cover_and_breach (sc : StockConfig) (pd : ProviderData) (d : StockData)
    (hloan : sc.loan_outstanding = 0)
    (hd : computeData sc pd = Except.ok d) :
    d.security_cover = some 0 ∧ coverGetD d = 0 ∧
    ∀ configs, configFind configs d.symbol = some sc →
      breachCheck configs d = decide (0 < sc.security_cover_threshold) := by
  cases hcp : currentPriceVol pd with
  | error e =>
    simp only [computeData, hcp] at hd
    exact Except.noConfusion hd
  | ok cv =>
    obtain ⟨cp, v⟩ := cv
    simp only [computeData, hcp, Except.ok.injEq] at hd
    subst hd
    have hcover : (if sc.loan_outstanding > 0 then
        sc.quantity_factor * cp / sc.loan_outstanding else 0) = 0 := by
      rw [hloan]
      simp
    refine ⟨?_, ?_, ?_⟩
    · simp only [hcover, pyRound2_zero]
    · simp only [coverGetD, hcover, pyRound2_zero, Option.getD_some]
    · intro configs hfind
      simp only [breachCheck, hfind, coverGetD, hcover, pyRound2_zero, Option.getD_some]

def wData3 : StockData :=
  { symbol := "ZERO.NS", current_price := 10, previous_close := 10,
    yesterday_close := 10, change := 0, change_percent := 0, yesterday_change := 0,
    yesterday_change_percent := 0, volume := 5, market_cap := none, trailing_pe := none,
    week52_high := none, week52_low := none, security_cover := some 0 }

/-- Witness for the amended C3 theorem at a concrete instrument. -/
theorem zero_loan_cover_and_breach_witness :
    cSc3.loan_outstanding = 0 ∧
    computeData cSc3 cPd3 = Except.ok wData3 ∧
    wData3.security_cover = some 0 ∧ coverGetD wData3 = 0 ∧
    configFind [cSc3] wData3.symbol = some cSc3 ∧
    breachCheck [cSc3] wData3 = decide ((0:ℚ) < cSc3.security_cover_threshold) := by
  have hd : computeData cSc3 cPd3 = Except.ok wData3 := by with_unfolding_all rfl
  obtain ⟨h1, h2, h3⟩ := zero_loan_cover_and_breach cSc3 cPd3 wData3 rfl hd
  refine ⟨rfl, hd, h1, h2, ?_, h3 [cSc3] ?_⟩ <;> with_unfolding_all rfl

/-! C4: the stored cover ratio is the formula rounded to two decimals -/

def cSc4 : StockConfig :=
  { symbol := "THIRD.NS", company_name := "One Third Ltd", quantity_factor := 1,
    loan_outstanding := 3, security_cover_threshold := 1 }

def cPd4 : ProviderData :=
  { currentPrice := none, previousClose := none, volume := none, marketCap := none,
    trailingPE := none, fiftyTwoWeekHigh := none, fiftyTwoWeekLow := none,
    hist5d := [], hist1d := [(1, 1)] }

/-- Counterexample to C4 as stated: with quantity factor 1, loan 3, price 1
the formula gives 1/3, but the snapshot stores `round(1/3, 2) = 0.33`, so
the stored cover ratio is not exactly the formula. -/
theorem cover_rounding_cex :
    (computeData cSc4 cPd4).toOption.map (fun d => d.security_cover) =
      some (some (33/100)) ∧
    ((33 : ℚ)/100) ≠ cSc4.quantity_factor * 1 / cSc4.loan_outstanding := by
  constructor
  · with_unfolding_all rfl
  · show ((33 : ℚ)/100) ≠ 1 * 1 / 3
    norm_num

/-- C4 (amended): the cover ratio stored in the snapshot is
`round₂((quantity_factor × current_price) / loan_outstanding)` when the
loan is positive, and `round₂ 0 = 0` otherwise, where `current_price` is
the unrounded fetched price and `round₂` is two-decimal half-even
rounding. -/
theorem snapshot_cover_rounded (sc : StockConfig) (pd : ProviderData) (cp : ℚ) (v : ℤ)
    (d : StockData)
    (hcp : currentPriceVol pd = Except.ok (cp, v))
    (hd : computeData sc pd = Except.ok d) :
    d.security_cover = some (pyRound2 (if sc.loan_outstanding > 0 then
      sc.quantity_factor * cp / sc.loan_outstanding else 0)) := by
  simp only [computeData, hcp, Except.ok.injEq] at hd
  subst hd
  rfl

def wData4 : StockData :=
  { symbol := "THIRD.NS", current_price := 1, previous_close := 1, yesterday_close := 1,
    change := 0, change_percent := 0, yesterday_change := 0,
    yesterday_change_percent := 0, volume := 1, market_cap := none, trailing_pe := none,
    week52_high := none, week52_low := none, security_cover := some (33/100) }

/-- Witness for the amended C4 theorem at a concrete fetch. -/
theorem snapshot_cover_rounded_witness :
    currentPriceVol cPd4 = Except.ok (1, 1) ∧
    computeData cSc4 cPd4 = Except.ok wData4 ∧
    wData4.security_cover = some (pyRound2 (if cSc4.loan_outstanding > 0 then
      cSc4.quantity_factor * 1 / cSc4.loan_outstanding else 0)) := by
  refine ⟨by with_unfolding_all rfl, by with_unfolding_all rfl, ?_⟩
  exact snapshot_cover_rounded cSc4 cPd4 1 1 wData4 (by with_unfolding_all rfl)
    (by with_unfolding_all rfl)

/-! C5: fetch failure falls back to cache, or fails when no cache exists -/

/-- C5: when the single-instrument fetch hits any fetch or parse failure,
`get_stock_data` returns the cached snapshot (and leaves the cache
unchanged) if one exists for the symbol, and fails with the fetch error
otherwise. -/
theorem fetch_failure_stale_fallback (cache : CacheMap) (sc : StockConfig)
    (resp : Option ProviderData)
    (hfail : attemptFetch sc resp = Except.error ()) :
    (∀ d, cache sc.symbol = some d →
      get_stock_data cache sc resp = (Except.ok d, cache)) ∧
    (cache sc.symbol = none →
      get_stock_data cache sc resp = (Except.error (), cache)) := by
  constructor
  · intro d hd
    simp [get_stock_data, hfail, hd]
  · intro hnone
    simp [get_stock_data, hfail, hnone]

/-- Witness for C5: a failed fetch with a warm cache serves the cached
snapshot; the same failure with a cold cache errors. -/
theorem fetch_failure_stale_fallback_witness :
    attemptFetch wSc1 none = Except.error () ∧
    (updateMap wCache0 "STAR.NS" wData2) wSc1.symbol = some wData2 ∧
    get_stock_data (updateMap wCache0 "STAR.NS" wData2) wSc1 none =
      (Except.ok wData2, updateMap wCache0 "STAR.NS" wData2) ∧
    wCache0 wSc1.symbol = none ∧
    get_stock_data wCache0 wSc1 none = (Except.error (), wCache0) := by
  refine ⟨rfl, rfl, ?_, rfl, ?_⟩
  · exact (fetch_failure_stale_fallback _ wSc1 none rfl).1 wData2 rfl
  · exact (fetch_failure_stale_fallback wCache0 wSc1 none rfl).2 rfl

/-! C7: per-recipient delivery failure never blocks later recipients -/

/-- C7: `send_alert` catches transport failures instead of raising, so the
set and order of recipients for which `_check_all_stocks` attempts
delivery is the same under any assignment of per-recipient transport
failures: one recipient's failure never suppresses a later attempt. -/
theorem dispatch_failure_isolated (isScheduled threatOnly : Bool)
    (items : List (StockConfig × Option ProviderData))
    (recipients : List RecipientConfig) (currency : String) (cache : CacheMap)
    (smtpPassword : String) (tfail1 tfail2 : String → Option String) :
    (check_all_stocks isScheduled threatOnly items recipients currency cache
        smtpPassword tfail1).map Prod.fst =
    (check_all_stocks isScheduled threatOnly items recipients currency cache
        smtpPassword tfail2).map Prod.fst := by
  unfold check_all_stocks
  by_cases hi : items.isEmpty || recipients.isEmpty
  · simp [hi]
  · simp only [hi, Bool.false_eq_true, if_false]
    rw [List.map_filterMap, List.map_filterMap]
    congr 1
    funext r
    cases planRecipient isScheduled threatOnly (items.map (fun p => p.1))
      (check_multiple_stocks cache items).1 currency r <;> rfl

/-! C10: downstream breach checks default a missing cover field to 999 -/

/-- C10: every downstream breach check reads the cover field with default
999, so a snapshot lacking it is treated as non-breached by the planner's
aggregation, by the renderer's styling, and by the manual-alert subject,
for every threshold not exceeding 999. -/
theorem missing_cover_defaults (d : StockData) (configs : List StockConfig)
    (sc : StockConfig) (currency : String)
    (hmiss : d.security_cover = none)
    (hfind : configFind configs d.symbol = some sc)
    (hthr : sc.security_cover_threshold ≤ 999) :
    coverGetD d = 999 ∧
    breachCheck configs d = false ∧
    (renderStock currency configs d).map (fun rb => rb.header_style) =
      some "color: blue;" ∧
    (renderStock currency configs d).map (fun rb => rb.cover_style) = some "" ∧
    manual_subject sc d = "Manual Stock Update" ++ ": " ++ sc.symbol := by
  have hcov : coverGetD d = 999 := by simp [coverGetD, hmiss]
  have hlt : ¬ (coverGetD d < sc.security_cover_threshold) := by
    rw [hcov]
    exact not_lt.mpr hthr
  refine ⟨hcov, ?_, ?_, ?_, ?_⟩
  · simp [breachCheck, hfind, hlt]
  · simp [renderStock, hfind, hlt]
  · simp [renderStock, hfind, hlt]
  · simp [manual_subject, hlt]

def wData10 : StockData :=
  { symbol := "STAR.NS", current_price := 11/2, previous_close := 11/2,
    yesterday_close := 11/2, change := 0, change_percent := 0, yesterday_change := 0,
    yesterday_change_percent := 0, volume := 0, market_cap := none,
    trailing_pe := none, week52_high := none, week52_low := none,
    security_cover := none }

/-- Witness for C10 on a concrete coverless snapshot. -/
theorem missing_cover_defaults_witness :
    wData10.security_cover = none ∧
    configFind [wSc2] wData10.symbol = some wSc2 ∧
    wSc2.security_cover_threshold ≤ 999 ∧
    coverGetD wData10 = 999 ∧
    breachCheck [wSc2] wData10 = false ∧
    manual_subject wSc2 wData10 = "Manual Stock Update" ++ ": " ++ wSc2.symbol := by
  have hthr : wSc2.security_cover_threshold ≤ 999 := by
    show (3/2 : ℚ) ≤ 999
    norm_num
  obtain ⟨h1, h2, _, _, h5⟩ :=
    missing_cover_defaults wData10 [wSc2] wSc2 "Rs" rfl (by with_unfolding_all rfl) hthr
  exact ⟨rfl, by with_unfolding_all rfl, hthr, h1, h2, h5⟩

/-! C8: manual trigger eligibility and subject escalation -/

/-- C8: after the target symbol resolves and its fetch succeeds, the manual
endpoint sends to exactly the recipients with the `manual_alerts`
preference on (or absent) whose subscriptions contain the uppercased
target; whenever that set is nonempty the message goes out, with the
escalated subject exactly when the target's cover ratio is below its
threshold. -/
theorem manual_alert_exact (symbol : String) (configs : List StockConfig)
    (recipients : List RecipientConfig) (currency : String) (cache : CacheMap)
    (resp : Option ProviderData) (smtpPassword : String) (tfail : String → Option String)
    (sc : StockConfig) (d : StockData)
    (hfind : configs.find? (fun s => s.symbol.toUpper == symbol.toUpper) = some sc)
    (hfetch : (get_stock_data cache sc resp).1 = Except.ok d)
    (hsome : recipients.filter (fun r =>
        r.subscribed_symbols.contains symbol.toUpper && r.manual_alerts.getD true) ≠ []) :
    trigger_manual_alert symbol configs recipients currency cache resp smtpPassword tfail =
      ManualResult.sent (manual_subject sc d) (format_grouped_alert [d] [sc] currency)
        ((recipients.filter (fun r =>
            r.subscribed_symbols.contains symbol.toUpper && r.manual_alerts.getD true)).map
          (fun r => (r.email, send_alert smtpPassword (tfail r.email)))) ∧
    (∀ e, e ∈ ((recipients.filter (fun r =>
          r.subscribed_symbols.contains symbol.toUpper && r.manual_alerts.getD true)).map
            (fun r => r.email)) ↔
        ∃ r ∈ recipients, r.email = e ∧ symbol.toUpper ∈ r.subscribed_symbols ∧
          r.manual_alerts.getD true = true) ∧
    (manual_subject sc d = "BOT ALERT!" ++ ": " ++ sc.symbol ↔
      coverGetD d < sc.security_cover_threshold) := by
  refine ⟨?_, ?_, ?_⟩
  · rw [← List.isEmpty_eq_false] at hsome
    simp only [trigger_manual_alert, hfind, hfetch, hsome, Bool.false_eq_true, if_false]
  · intro e
    simp only [List.mem_map, List.mem_filter, Bool.and_eq_true, List.elem_iff]
    constructor
    · rintro ⟨r, ⟨hr, hsub, hpref⟩, he⟩
      exact ⟨r, hr, he, hsub, hpref⟩
    · rintro ⟨r, hr, he, hsub, hpref⟩
      exact ⟨r, ⟨hr, hsub, hpref⟩, he⟩
  · by_cases hb : coverGetD d < sc.security_cover_threshold
    · simp [manual_subject, hb]
    · have hsubj : manual_subject sc d = "Manual Stock Update" ++ ": " ++ sc.symbol := by
        simp [manual_subject, hb]
      rw [hsubj]
      constructor
      · intro h
        exfalso
        have h2 := congrArg String.length h
        have e1 : ("Manual Stock Update" : String).length = 19 := rfl
        have e2 : ("BOT ALERT!" : String).length = 10 := rfl
        have e3 : (": " : String).length = 2 := rfl
        rw [String.length_append, String.length_append, String.length_append,
          String.length_append, e1, e2, e3] at h2
        omega
      · intro hlt
        exact absurd hlt hb

def wCache8 : CacheMap := updateMap wCache0 "STAR.NS" wData2

/-- Witness for C8: a concrete manual trigger on a breached, cached
instrument dispatches to the one subscribed recipient with the escalated
subject. -/
theorem manual_alert_exact_witness :
    [wSc2].find? (fun s => s.symbol.toUpper == ("STAR.NS" : String).toUpper) =
      some wSc2 ∧
    (get_stock_data wCache8 wSc2 none).1 = Except.ok wData2 ∧
    [wRec1].filter (fun r =>
      r.subscribed_symbols.contains ("STAR.NS" : String).toUpper &&
        r.manual_alerts.getD true) ≠ [] ∧
    trigger_manual_alert "STAR.NS" [wSc2] [wRec1] "Rs" wCache8 none "pw" (fun _ => none) =
      ManualResult.sent (manual_subject wSc2 wData2)
        (format_grouped_alert [wData2] [wSc2] "Rs")
        (([wRec1].filter (fun r =>
            r.subscribed_symbols.contains ("STAR.NS" : String).toUpper &&
              r.manual_alerts.getD true)).map
          (fun r => (r.email, send_alert "pw" ((fun _ => none) r.email)))) ∧
    manual_subject wSc2 wData2 = "BOT ALERT!" ++ ": " ++ wSc2.symbol := by
  have hfind : [wSc2].find? (fun s => s.symbol.toUpper == ("STAR.NS" : String).toUpper) =
      some wSc2 := by with_unfolding_all rfl
  have hfetch : (get_stock_data wCache8 wSc2 none).1 = Except.ok wData2 := by
    with_unfolding_all rfl
  have hsome : [wRec1].filter (fun r =>
      r.subscribed_symbols.contains ("STAR.NS" : String).toUpper &&
        r.manual_alerts.getD true) ≠ [] := by
    rw [show [wRec1].filter (fun r =>
        r.subscribed_symbols.contains ("STAR.NS" : String).toUpper &&
          r.manual_alerts.getD true) = [wRec1] from by with_unfolding_all rfl]
    exact List.cons_ne_nil _ _
  refine ⟨hfind, hfetch, hsome, ?_, by with_unfolding_all rfl⟩
  exact (manual_alert_exact "STAR.NS" [wSc2] [wRec1] "Rs" wCache8 none "pw" (fun _ => none)
    wSc2 wData2 hfind hfetch hsome).1

/-! C9: bar selection for prior-session close and the change fields -/

lemma reverse_getElem_fwd {α : Type} {l : List α} {k : Nat} {c : α}
    (hlt : k < l.length) (hk : l.reverse[k]? = some c) :
    l[l.length - 1 - k]? = some c := by
  rw [← List.getElem?_reverse hlt]
  exact hk

def cSc9 : StockConfig :=
  { symbol := "FRACT.NS", company_name := "Fraction Ltd", quantity_factor := 1,
    loan_outstanding := 1, security_cover_threshold := 1 }

def cPd9 : ProviderData :=
  { currentPrice := none, previousClose := none, volume := none, marketCap := none,
    trailingPE := none, fiftyTwoWeekHigh := none, fiftyTwoWeekLow := none,
    hist5d := [1/3, 7], hist1d := [(5, 100)] }

/-- Counterexample to C9 as stated: with two daily bars closing at 1/3 and
7, the snapshot's prior-session close is `round(1/3, 2) = 0.33`, not
the second-to-last bar's close 1/3 itself. -/
theorem history_rounding_cex :
    (computeData cSc9 cPd9).toOption.map (fun d => d.yesterday_close) =
      some (33/100) ∧
    cPd9.hist5d[cPd9.hist5d.length - 2]? = some (1/3) ∧
    ((33 : ℚ)/100) ≠ 1/3 := by
  refine ⟨by with_unfolding_all rfl, by with_unfolding_all rfl, by norm_num⟩

/-- C9 (amended): each stored history field is the claimed quantity after
two-decimal rounding: the prior-session close is the second-to-last daily
bar when ≥2 bars exist, else the provider's previous-close field (default:
the current price); the day change is the current price minus the most
recent prior close; the prior-day change and its percent are computed
against the bar two sessions back when ≥3 bars exist and are zero
otherwise. -/
theorem history_field_semantics (sc : StockConfig) (pd : ProviderData) (cp : ℚ) (v : ℤ)
    (d : StockData)
    (hcp : currentPriceVol pd = Except.ok (cp, v))
    (hd : computeData sc pd = Except.ok d) :
    (∀ yc, 2 ≤ pd.hist5d.length → pd.hist5d[pd.hist5d.length - 2]? = some yc →
      d.yesterday_close = pyRound2 yc) ∧
    (pd.hist5d.length < 2 →
      d.yesterday_close = pyRound2 (pd.previousClose.getD cp)) ∧
    (∀ pc, 2 ≤ pd.hist5d.length → pd.hist5d[pd.hist5d.length - 1]? = some pc →
      d.previous_close = pyRound2 pc ∧ d.change = pyRound2 (cp - pc)) ∧
    (pd.hist5d.length < 2 →
      d.previous_close = pyRound2 (pd.previousClose.getD cp) ∧
      d.change = pyRound2 (cp - pd.previousClose.getD cp)) ∧
    (∀ yc dby, 3 ≤ pd.hist5d.length →
      pd.hist5d[pd.hist5d.length - 2]? = some yc →
      pd.hist5d[pd.hist5d.length - 3]? = some dby →
      d.yesterday_change = pyRound2 (yc - dby) ∧
      d.yesterday_change_percent =
        pyRound2 (if dby ≠ 0 then (yc - dby) / dby * 100 else 0)) ∧
    (pd.hist5d.length < 3 →
      d.yesterday_change = 0 ∧ d.yesterday_change_percent = 0) := by
  simp only [computeData, hcp, Except.ok.injEq] at hd
  subst hd
  rcases hr : pd.hist5d.reverse with _ | ⟨c1, t1⟩
  · have hlen : pd.hist5d.length = 0 := by
      rw [← List.length_reverse, hr]
      rfl
    refine ⟨?_, ?_, ?_, ?_, ?_, ?_⟩ <;>
      simp only [hr, hlen, pyRound2_zero] <;> first
        | (intro x h2 h3; omega)
        | (intro h2; exact ⟨trivial, trivial⟩)
        | (intro h2; trivial)
  · rcases t1 with _ | ⟨c2, t⟩
    · have hlen : pd.hist5d.length = 1 := by
        rw [← List.length_reverse, hr]
        rfl
      refine ⟨?_, ?_, ?_, ?_, ?_, ?_⟩ <;>
        simp only [hr, hlen, pyRound2_zero] <;> first
          | (intro x h2 h3; omega)
          | (intro h2; exact ⟨trivial, trivial⟩)
          | (intro h2; trivial)
    · have hlen : pd.hist5d.length = t.length + 2 := by
        rw [← List.length_reverse, hr]
        rfl
      have hc1 : pd.hist5d[pd.hist5d.length - 1]? = some c1 := by
        have := reverse_getElem_fwd (l := pd.hist5d) (k := 0) (c := c1) (by omega)
          (by rw [hr]; simp)
        simpa using this
      have hc2 : pd.hist5d[pd.hist5d.length - 2]? = some c2 := by
        have := reverse_getElem_fwd (l := pd.hist5d) (k := 1) (c := c2) (by omega)
          (by rw [hr]; simp)
        rw [show pd.hist5d.length - 1 - 1 = pd.hist5d.length - 2 from by omega] at this
        exact this
      refine ⟨?_, ?_, ?_, ?_, ?_, ?_⟩
      · intro yc h2 h3
        rw [hc2] at h3
        obtain rfl : c2 = yc := Option.some.injEq _ _ ▸ h3
        simp only [hr]
      · intro h2
        omega
      · intro pc h2 h3
        rw [hc1] at h3
        obtain rfl : c1 = pc := Option.some.injEq _ _ ▸ h3
        exact ⟨by simp only [hr], by simp only [hr]⟩
      · intro h2
        omega
      · intro yc dby h3 hyc hdby
        rcases ht : t with _ | ⟨c3, t2⟩
        · subst ht
          exfalso
          simp only [List.length_nil] at hlen
          omega
        · subst ht
          have hc3 : pd.hist5d[pd.hist5d.length - 3]? = some c3 := by
            have := reverse_getElem_fwd (l := pd.hist5d) (k := 2) (c := c3)
              (by simp only [List.length_cons] at hlen; omega)
              (by rw [hr]; simp)
            rw [show pd.hist5d.length - 1 - 2 = pd.hist5d.length - 3 from by omega] at this
            exact this
          rw [hc2] at hyc
          rw [hc3] at hdby
          obtain rfl : c2 = yc := Option.some.injEq _ _ ▸ hyc
          obtain rfl : c3 = dby := Option.some.injEq _ _ ▸ hdby
          exact ⟨by simp only [hr], by simp only [hr]⟩
      · intro h3
        rcases ht : t with _ | ⟨c3, t2⟩
        · subst ht
          simp only [hr, pyRound2_zero]
          exact ⟨trivial, trivial⟩
        · subst ht
          exfalso
          simp only [List.length_cons] at hlen
          omega

def wSc9 : StockConfig :=
  { symbol := "HIST.NS", company_name := "History Ltd", quantity_factor := 1,
    loan_outstanding := 1, security_cover_threshold := 1 }

def wPd9 : ProviderData :=
  { currentPrice := none, previousClose := none, volume := none, marketCap := none,
    trailingPE := none, fiftyTwoWeekHigh := none, fiftyTwoWeekLow := none,
    hist5d := [2, 3, 4, 5, 6], hist1d := [(7, 10)] }

def wData9 : StockData :=
  { symbol := "HIST.NS", current_price := 7, previous_close := 6, yesterday_close := 5,
    change := 1, change_percent := 1667/100, yesterday_change := 1,
    yesterday_change_percent := 25, volume := 10, market_cap := none,
    trailing_pe := none, week52_high := none, week52_low := none,
    security_cover := some 7 }

/-- Witness for the amended C9 theorem on a five-bar history. -/
theorem history_field_semantics_witness :
    currentPriceVol wPd9 = Except.ok (7, 10) ∧
    computeData wSc9 wPd9 = Except.ok wData9 ∧
    2 ≤ wPd9.hist5d.length ∧ wPd9.hist5d[wPd9.hist5d.length - 2]? = some 5 ∧
    wData9.yesterday_close = pyRound2 5 ∧
    3 ≤ wPd9.hist5d.length ∧ wPd9.hist5d[wPd9.hist5d.length - 3]? = some 4 ∧
    wData9.yesterday_change = pyRound2 (5 - 4) := by
  have hcp : currentPriceVol wPd9 = Except.ok (7, 10) := by with_unfolding_all rfl
  have hd : computeData wSc9 wPd9 = Except.ok wData9 := by with_unfolding_all rfl
  have h2 : (2:Nat) ≤ wPd9.hist5d.length := by decide
  have h3 : (3:Nat) ≤ wPd9.hist5d.length := by decide
  have hyc : wPd9.hist5d[wPd9.hist5d.length - 2]? = some 5 := by with_unfolding_all rfl
  have hdby : wPd9.hist5d[wPd9.hist5d.length - 3]? = some 4 := by with_unfolding_all rfl
  have th := history_field_semantics wSc9 wPd9 7 10 wData9 hcp hd
  refine ⟨hcp, hd, h2, hyc, th.1 5 h2 hyc, h3, hdby, (th.2.2.2.2.1 5 4 h3 hyc hdby).1⟩

/-! C6: membership in the multi-fetch snapshot map -/

lemma gsd_snd_ne (c : CacheMap) (sc : StockConfig) (resp : Option ProviderData)
    (s : String) (hs : s ≠ sc.symbol) :
    (get_stock_data c sc resp).2 s = c s := by
  cases h : attemptFetch sc resp with
  | ok d => simp [get_stock_data, h, updateMap, hs]
  | error e => cases hc : c sc.symbol <;> simp [get_stock_data, h, hc]

lemma gsd_fst_congr (c1 c2 : CacheMap) (sc : StockConfig) (resp : Option ProviderData)
    (h : c1 sc.symbol = c2 sc.symbol) :
    (get_stock_data c1 sc resp).1 = (get_stock_data c2 sc resp).1 := by
  cases ha : attemptFetch sc resp with
  | ok d => simp [get_stock_data, ha]
  | error e => cases hc : c2 sc.symbol <;> simp [get_stock_data, ha, h, hc]

lemma gsd_snd_congr_at (c1 c2 : CacheMap) (sc : StockConfig) (resp : Option ProviderData)
    (h : c1 sc.symbol = c2 sc.symbol) :
    (get_stock_data c1 sc resp).2 sc.symbol = (get_stock_data c2 sc resp).2 sc.symbol := by
  cases ha : attemptFetch sc resp with
  | ok d => simp [get_stock_data, ha, updateMap]
  | error e =>
    have h1 : (get_stock_data c1 sc resp).2 sc.symbol = c1 sc.symbol := by
      cases hc : c1 sc.symbol <;> simp [get_stock_data, ha, hc]
    have h2 : (get_stock_data c2 sc resp).2 sc.symbol = c2 sc.symbol := by
      cases hc : c2 sc.symbol <;> simp [get_stock_data, ha, hc]
    rw [h1, h2, h]

lemma gather_snd_not_mem (s : String) :
    ∀ (items : List (StockConfig × Option ProviderData)) (c : CacheMap),
      (∀ p ∈ items, p.1.symbol ≠ s) → (gatherResults c items).2 s = c s := by
  intro items
  induction items with
  | nil => intro c _; rfl
  | cons p rest ih =>
    intro c h
    simp only [gatherResults]
    rw [ih _ (fun q hq => h q (List.mem_cons_of_mem p hq))]
    exact gsd_snd_ne c p.1 p.2 s (h p (List.mem_cons_self p rest)).symm

lemma gather_fst :
    ∀ (items : List (StockConfig × Option ProviderData)) (c : CacheMap),
      (items.map (fun p => p.1.symbol)).Nodup →
      (gatherResults c items).1 = items.map (fun q => (get_stock_data c q.1 q.2).1) := by
  intro items
  induction items with
  | nil => intro c _; rfl
  | cons p rest ih =>
    intro c hnd
    rw [List.map_cons] at hnd
    obtain ⟨hnm, htl⟩ := List.nodup_cons.mp hnd
    simp only [gatherResults, List.map_cons, List.cons.injEq]
    refine ⟨trivial, ?_⟩
    rw [ih _ htl]
    apply List.map_congr_left
    intro q hq
    have hne : (get_stock_data c p.1 p.2).2 q.1.symbol = c q.1.symbol := by
      apply gsd_snd_ne
      intro he
      exact hnm (he ▸ List.mem_map_of_mem (fun x => x.1.symbol) hq)
    exact gsd_fst_congr _ _ q.1 q.2 hne

lemma gather_snd_owner :
    ∀ (items : List (StockConfig × Option ProviderData)) (c : CacheMap)
      (p : StockConfig × Option ProviderData),
      (items.map (fun p => p.1.symbol)).Nodup → p ∈ items →
      (gatherResults c items).2 p.1.symbol =
        (get_stock_data c p.1 p.2).2 p.1.symbol := by
  intro items
  induction items with
  | nil => intro c p _ hp; cases hp
  | cons q rest ih =>
    intro c p hnd hp
    rw [List.map_cons] at hnd
    obtain ⟨hnm, htl⟩ := List.nodup_cons.mp hnd
    rcases List.mem_cons.mp hp with hpq | hpr
    · subst hpq
      simp only [gatherResults]
      apply gather_snd_not_mem
      intro x hx he
      exact hnm (he ▸ List.mem_map_of_mem (fun y => y.1.symbol) hx)
    · simp only [gatherResults]
      rw [ih _ p htl hpr]
      apply gsd_snd_congr_at
      apply gsd_snd_ne
      intro he
      exact hnm (he ▸ List.mem_map_of_mem (fun y => y.1.symbol) hpr)

lemma buildMap_ne (fc : CacheMap) (s : String) :
    ∀ (scs : List StockConfig) (rs : List (Except Unit StockData))
      (m : String → Option StockData),
      (∀ sc ∈ scs, sc.symbol ≠ s) → buildMap fc m scs rs s = m s := by
  intro scs
  induction scs with
  | nil => intro rs m _; rfl
  | cons sc scs' ih =>
    intro rs m h
    have hne : s ≠ sc.symbol := (h sc (List.mem_cons_self sc scs')).symm
    have hrest : ∀ x ∈ scs', x.symbol ≠ s := fun x hx => h x (List.mem_cons_of_mem sc hx)
    cases rs with
    | nil => rfl
    | cons r rs' =>
      cases r with
      | ok d =>
        simp only [buildMap]
        rw [ih rs' _ hrest]
        simp [updateMap, hne]
      | error e =>
        cases hfc : fc sc.symbol with
        | some d =>
          simp only [buildMap, hfc]
          rw [ih rs' _ hrest]
          simp [updateMap, hne]
        | none =>
          simp only [buildMap, hfc]
          exact ih rs' _ hrest

lemma gsd_fst_error (c : CacheMap) (sc : StockConfig) (resp : Option ProviderData)
    (h : (get_stock_data c sc resp).1 = Except.error ()) :
    c sc.symbol = none ∧ (get_stock_data c sc resp).2 = c := by
  cases ha : attemptFetch sc resp with
  | ok d => simp [get_stock_data, ha] at h
  | error e =>
    cases hc : c sc.symbol with
    | some d => simp [get_stock_data, ha, hc] at h
    | none => simp [get_stock_data, ha, hc]

lemma buildMap_owner (cache fc : CacheMap) :
    ∀ (items : List (StockConfig × Option ProviderData))
      (m0 : String → Option StockData),
      (items.map (fun p => p.1.symbol)).Nodup →
      (∀ q ∈ items, fc q.1.symbol = (get_stock_data cache q.1 q.2).2 q.1.symbol) →
      (∀ q ∈ items, m0 q.1.symbol = none) →
      ∀ p ∈ items,
        buildMap fc m0 (items.map (fun p => p.1))
            (items.map (fun q => (get_stock_data cache q.1 q.2).1)) p.1.symbol =
          ((get_stock_data cache p.1 p.2).1).toOption := by
  intro items
  induction items with
  | nil => intro m0 _ _ _ p hp; cases hp
  | cons q rest ih =>
    intro m0 hnd hfc hm0 p hp
    rw [List.map_cons] at hnd
    obtain ⟨hnm, htl⟩ := List.nodup_cons.mp hnd
    have hrestne : ∀ x ∈ rest.map (fun p => p.1), x.symbol ≠ q.1.symbol := by
      intro x hx he
      obtain ⟨y, hy, hxy⟩ := List.mem_map.mp hx
      exact hnm (he ▸ hxy ▸ List.mem_map_of_mem (fun z => z.1.symbol) hy)
    rcases List.mem_cons.mp hp with hpq | hpr
    · subst hpq
      cases hr : (get_stock_data cache p.1 p.2).1 with
      | ok d =>
        simp only [List.map_cons, buildMap, hr]
        rw [buildMap_ne fc p.1.symbol _ _ _ hrestne]
        simp [updateMap, Except.toOption]
      | error e =>
        obtain ⟨hcnone, hsnd⟩ := gsd_fst_error cache p.1 p.2 (by rw [hr])
        have hfcp : fc p.1.symbol = none := by
          rw [hfc p (List.mem_cons_self p rest), hsnd, hcnone]
        simp only [List.map_cons, buildMap, hr, hfcp]
        rw [buildMap_ne fc p.1.symbol _ _ _ hrestne]
        rw [hm0 p (List.mem_cons_self p rest)]
        rfl
    · have hm1 : ∀ x ∈ rest, x.1.symbol ≠ q.1.symbol := by
        intro x hx he
        exact hnm (he ▸ List.mem_map_of_mem (fun z => z.1.symbol) hx)
      have step : ∀ (m1 : String → Option StockData),
          (∀ x ∈ rest, m1 x.1.symbol = none) →
          buildMap fc m1 (rest.map (fun p => p.1))
              (rest.map (fun z => (get_stock_data cache z.1 z.2).1)) p.1.symbol =
            ((get_stock_data cache p.1 p.2).1).toOption := by
        intro m1 hm1z
        exact ih m1 htl
          (fun x hx => hfc x (List.mem_cons_of_mem q hx)) hm1z p hpr
      cases hr : (get_stock_data cache q.1 q.2).1 with
      | ok d =>
        simp only [List.map_cons, buildMap, hr]
        apply step
        intro x hx
        simp [updateMap, hm1 x hx, hm0 x (List.mem_cons_of_mem q hx)]
      | error e =>
        cases hfcq : fc q.1.symbol with
        | some d =>
          simp only [List.map_cons, buildMap, hr, hfcq]
          apply step
          intro x hx
          simp [updateMap, hm1 x hx, hm0 x (List.mem_cons_of_mem q hx)]
        | none =>
          simp only [List.map_cons, buildMap, hr, hfcq]
          apply step
          intro x hx
          exact hm0 x (List.mem_cons_of_mem q hx)

/-- C6: over distinct symbols, each symbol's entry in the map produced by
`check_multiple_stocks` is exactly the outcome of its own
`get_stock_data` against the cache the run started with — present with the
fresh (or stale-cached) snapshot when that fetch produced a value, absent
when it failed with no cache — independently of every other instrument's
outcome; symbols of no requested instrument are absent. -/
theorem fetchmany_membership (cache : CacheMap)
    (items : List (StockConfig × Option ProviderData))
    (hnodup : (items.map (fun p => p.1.symbol)).Nodup) :
    (∀ p ∈ items, (check_multiple_stocks cache items).1 p.1.symbol =
      ((get_stock_data cache p.1 p.2).1).toOption) ∧
    (∀ s, (∀ p ∈ items, p.1.symbol ≠ s) →
      (check_multiple_stocks cache items).1 s = none) := by
  constructor
  · intro p hp
    show (buildMap (gatherResults cache items).2 (fun _ => none)
        (items.map (fun p => p.1)) (gatherResults cache items).1) p.1.symbol = _
    rw [gather_fst items cache hnodup]
    exact buildMap_owner cache ((gatherResults cache items).2) items (fun _ => none)
      hnodup (fun q hq => gather_snd_owner items cache q hnodup hq)
      (fun q hq => rfl) p hp
  · intro s hs
    show (buildMap (gatherResults cache items).2 (fun _ => none)
        (items.map (fun p => p.1)) (gatherResults cache items).1) s = none
    exact buildMap_ne _ s _ _ _ (fun sc hsc => by
      obtain ⟨p, hp, hps⟩ := List.mem_map.mp hsc
      exact hps ▸ hs p hp)

def wSc6 : StockConfig :=
  { symbol := "MISS.NS", company_name := "Missing Ltd", quantity_factor := 1,
    loan_outstanding := 1, security_cover_threshold := 1 }

def wItems6 : List (StockConfig × Option ProviderData) :=
  [(wSc1, some wPd1), (wSc6, none)]

def wData6 : StockData :=
  { symbol := "STAR.NS", current_price := 6, previous_close := 8, yesterday_close := 6,
    change := -2, change_percent := -25, yesterday_change := 2,
    yesterday_change_percent := 50, volume := 100, market_cap := none,
    trailing_pe := none, week52_high := none, week52_low := none,
    security_cover := some 3 }

/-- Witness for C6: one fetch succeeds and lands in the map; the other
fails with an empty cache and is silently absent. -/
theorem fetchmany_membership_witness :
    (wItems6.map (fun p => p.1.symbol)).Nodup ∧
    (check_multiple_stocks wCache0 wItems6).1 wSc1.symbol =
      ((get_stock_data wCache0 wSc1 (some wPd1)).1).toOption ∧
    (check_multiple_stocks wCache0 wItems6).1 wSc6.symbol =
      ((get_stock_data wCache0 wSc6 none).1).toOption ∧
    ((get_stock_data wCache0 wSc1 (some wPd1)).1).toOption = some wData6 ∧
    ((get_stock_data wCache0 wSc6 none).1).toOption = none := by
  have hnodup : (wItems6.map (fun p => p.1.symbol)).Nodup := by
    rw [show wItems6.map (fun p => p.1.symbol) = ["STAR.NS", "MISS.NS"] from rfl]
    decide
  have th := fetchmany_membership wCache0 wItems6 hnodup
  refine ⟨hnodup, th.1 (wSc1, some wPd1) ?_, th.1 (wSc6, none) ?_,
    by with_unfolding_all rfl, by with_unfolding_all rfl⟩
  · simp [wItems6]
  · simp [wItems6]
